import Mathlib

/-!
Verification development for the zeekoe zkChannels client/server.

The definitions below are a shallow embedding of the Rust sources:
  src/database/customer.rs, src/database/customer/state.rs,
  src/database/merchant.rs, src/bin/customer/close.rs,
  src/bin/customer/run.rs, src/bin/customer/pay.rs,
  src/bin/customer/establish.rs, src/bin/merchant/close.rs,
  src/escrow/mod.rs.

Cryptographic primitives (the zkabacus_crypto crate) are external to the
repository and are treated as abstract operations with the contracts stated in
the specification: their data is modelled by the observable fields the code
reads (channel id, balances, revocation lock, closing signature), and fallible
cryptographic calls are modelled by an explicit outcome parameter.
-/

namespace Zeekoe

/-- Decidable equality for Except results, used to evaluate the fallible
operations below at concrete inputs. -/
instance instDecidableEqExcept (ε α : Type) [DecidableEq ε] [DecidableEq α] :
    DecidableEq (Except ε α) := fun x y =>
  match x, y with
  | .error a, .error b =>
    if h : a = b then .isTrue (by rw [h])
    else .isFalse (fun hc => by cases hc; exact h rfl)
  | .ok a, .ok b =>
    if h : a = b then .isTrue (by rw [h])
    else .isFalse (fun hc => by cases hc; exact h rfl)
  | .error _, .ok _ => .isFalse (fun hc => by cases hc)
  | .ok _, .error _ => .isFalse (fun hc => by cases hc)

/-- Channel identifier. The real type wraps the 32 bytes produced by hashing
the five inputs of ChannelId::new; we model the identifier as the list of
bytes and ChannelId.new as a deterministic stand-in for that hash, injective
in its five arguments, which is all the code under verification relies on. -/
structure ChannelId where
  bytes : List Nat
deriving DecidableEq, Repr

/-- Stand-in for zkabacus_crypto ChannelId::new(merchant_randomness,
customer_randomness, merchant_public_key, merchant_tezos_address,
customer_tezos_address): a deterministic function of the five inputs. -/
def ChannelId.new (merchantRandomness customerRandomness merchantPublicKey : Nat)
    (merchantTezosAddress customerTezosAddress : List Nat) : ChannelId :=
  ⟨[merchantRandomness, customerRandomness, merchantPublicKey, 0] ++
    merchantTezosAddress ++ [256] ++ customerTezosAddress⟩

/-- The channel id computed during Establish (src/bin/customer/establish.rs,
lines 115 to 121). The two final arguments of ChannelId::new are the byte
strings of the merchant and customer Tezos addresses, which the source
replaces with empty slices (the two TODO comments at lines 119 and 120);
the address parameters are therefore ignored. -/
def establish_channel_id (merchantRandomness customerRandomness merchantPublicKey : Nat)
    (merchantTezosAddress customerTezosAddress : List Nat) : ChannelId :=
  ChannelId.new merchantRandomness customerRandomness merchantPublicKey [] []

/-- Closing signature on a close state. The merchant delivers one signature
per state; closing a state refreshes it for the closing context using the
random number generator (spec section 4.D). Modelled as a free structure so
that refreshing is deterministic but does not collapse distinct signatures. -/
inductive Sig where
  | mk (n : Nat) : Sig
  | refreshed (s : Sig) (rng : Nat) : Sig
deriving DecidableEq, Repr

/-- CloseState: the tuple (channel_id, customer_balance, merchant_balance,
revocation_lock). Balances are in minor units. -/
structure CloseState where
  channel_id : ChannelId
  customer_balance : Nat
  merchant_balance : Nat
  revocation_lock : Nat
deriving DecidableEq, Repr

/-- ClosingMessage: a CloseState together with its ClosingSignature. -/
structure ClosingMessage where
  close_state : CloseState
  closing_signature : Sig
deriving DecidableEq, Repr

def ClosingMessage.channel_id (cm : ClosingMessage) : ChannelId :=
  cm.close_state.channel_id

def ClosingMessage.customer_balance (cm : ClosingMessage) : Nat :=
  cm.close_state.customer_balance

def ClosingMessage.merchant_balance (cm : ClosingMessage) : Nat :=
  cm.close_state.merchant_balance

def ClosingMessage.revocation_lock (cm : ClosingMessage) : Nat :=
  cm.close_state.revocation_lock

/-- Observable content of the zkAbacus Inactive state: the data the customer
code reads from it, plus the stored closing signature used by close(rng). -/
structure ZkInactive where
  channel_id : ChannelId
  customer_balance : Nat
  merchant_balance : Nat
  revocation_lock : Nat
  closing_signature : Sig
deriving DecidableEq, Repr

/-- Observable content of the zkAbacus Ready state. -/
structure ZkReady where
  channel_id : ChannelId
  customer_balance : Nat
  merchant_balance : Nat
  revocation_lock : Nat
  closing_signature : Sig
deriving DecidableEq, Repr

/-- Observable content of the zkAbacus Started state. -/
structure ZkStarted where
  channel_id : ChannelId
  customer_balance : Nat
  merchant_balance : Nat
  revocation_lock : Nat
  closing_signature : Sig
deriving DecidableEq, Repr

/-- Observable content of the zkAbacus Locked state. -/
structure ZkLocked where
  channel_id : ChannelId
  customer_balance : Nat
  merchant_balance : Nat
  revocation_lock : Nat
  closing_signature : Sig
deriving DecidableEq, Repr

/-- Close the Inactive state: produce a ClosingMessage on the current close
state, with the stored closing signature refreshed for the closing context
(contract of the external crypto crate, spec section 4.D). -/
def ZkInactive.close (i : ZkInactive) (rng : Nat) : ClosingMessage :=
  ⟨⟨i.channel_id, i.customer_balance, i.merchant_balance, i.revocation_lock⟩,
    Sig.refreshed i.closing_signature rng⟩

/-- Close the Ready state. -/
def ZkReady.close (r : ZkReady) (rng : Nat) : ClosingMessage :=
  ⟨⟨r.channel_id, r.customer_balance, r.merchant_balance, r.revocation_lock⟩,
    Sig.refreshed r.closing_signature rng⟩

/-- Close the Started state. -/
def ZkStarted.close (s : ZkStarted) (rng : Nat) : ClosingMessage :=
  ⟨⟨s.channel_id, s.customer_balance, s.merchant_balance, s.revocation_lock⟩,
    Sig.refreshed s.closing_signature rng⟩

/-- Close the Locked state. -/
def ZkLocked.close (l : ZkLocked) (rng : Nat) : ClosingMessage :=
  ⟨⟨l.channel_id, l.customer_balance, l.merchant_balance, l.revocation_lock⟩,
    Sig.refreshed l.closing_signature rng⟩

/-- Names of the customer channel states (src/database/customer/state.rs,
StateName), including PendingCustomerClaim, which bin/customer/close.rs and
bin/customer/run.rs reference and the spec state table lists even though the
state.rs revision in the tree predates it. -/
inductive StateName where
  | Inactive
  | Originated
  | CustomerFunded
  | MerchantFunded
  | Ready
  | Started
  | Locked
  | PendingClose
  | PendingCustomerClaim
  | Dispute
  | Closed
deriving DecidableEq, Repr

/-- The persisted customer channel state (src/database/customer/state.rs,
enum State), extended with the PendingCustomerClaim variant constructed by
bin/customer/close.rs (claim_funds) and matched by bin/customer/run.rs; the
spec state table lists it with a ClosingMessage payload. -/
inductive State where
  | Inactive (inactive : ZkInactive)
  | Originated (inactive : ZkInactive)
  | CustomerFunded (inactive : ZkInactive)
  | MerchantFunded (inactive : ZkInactive)
  | Ready (ready : ZkReady)
  | Started (started : ZkStarted)
  | Locked (locked : ZkLocked)
  | PendingClose (closing_message : ClosingMessage)
  | PendingCustomerClaim (closing_message : ClosingMessage)
  | Dispute (closing_message : ClosingMessage)
  | Closed (closing_message : ClosingMessage)
deriving DecidableEq, Repr

/-- Name of a state (State::state_name). -/
def State.state_name : State → StateName
  | .Inactive _ => .Inactive
  | .Originated _ => .Originated
  | .CustomerFunded _ => .CustomerFunded
  | .MerchantFunded _ => .MerchantFunded
  | .Ready _ => .Ready
  | .Started _ => .Started
  | .Locked _ => .Locked
  | .PendingClose _ => .PendingClose
  | .PendingCustomerClaim _ => .PendingCustomerClaim
  | .Dispute _ => .Dispute
  | .Closed _ => .Closed

/-- Errors of the customer close flows (protocol close::Error and the local
error enum of src/bin/customer/close.rs). -/
inductive CloseError where
  | UncloseableState (actual : StateName)
  | NoContractDetails
  | UnexpectedState (expected actual : StateName)
deriving DecidableEq, Repr

/-- Extract the close message from the saved channel state and update the
state to PendingClose atomically (src/bin/customer/close.rs, get_close_message,
lines 506 to 534). Returns the new persisted state together with the
ClosingMessage, or the UncloseableState error produced by the catch-all match
arm. -/
def get_close_message (rng : Nat) (state : State) :
    Except CloseError (State × ClosingMessage) :=
  match state with
  | .Inactive inactive =>
    let cm := inactive.close rng; .ok (.PendingClose cm, cm)
  | .Originated inactive =>
    let cm := inactive.close rng; .ok (.PendingClose cm, cm)
  | .CustomerFunded inactive =>
    let cm := inactive.close rng; .ok (.PendingClose cm, cm)
  | .MerchantFunded inactive =>
    let cm := inactive.close rng; .ok (.PendingClose cm, cm)
  | .Ready ready =>
    let cm := ready.close rng; .ok (.PendingClose cm, cm)
  | .Started started =>
    let cm := started.close rng; .ok (.PendingClose cm, cm)
  | .Locked locked =>
    let cm := locked.close rng; .ok (.PendingClose cm, cm)
  | .PendingClose close_message => .ok (.PendingClose close_message, close_message)
  | other => .error (.UncloseableState other.state_name)

/-- On-chain contract statuses (src/escrow/mod.rs, enum ContractStatus). -/
inductive ContractStatus where
  | AwaitingCustomerFunding
  | AwaitingMerchantFunding
  | Open
  | Expiry
  | CustomerClose
  | Closed
  | FundingReclaimed
deriving DecidableEq, Repr

/-- The part of the on-chain contract state the polling loop reads
(src/escrow/tezos.rs ContractState: the status and the timeout flag, which is
some b only when the status carries a custClose timeout). -/
structure ContractState where
  status : ContractStatus
  timeout_expired : Option Bool
deriving DecidableEq, Repr

/-- Final balances recorded on close (the closing_balances columns read by
run.rs and written through update_closing_balances). -/
structure ClosingBalances where
  merchant_balance : Option Nat
  customer_balance : Option Nat
deriving DecidableEq, Repr

/-- The per-channel record the polling loop and the close flows read from the
customer store: persisted state, stored contract id, recorded closing
balances. -/
structure ChannelDetails where
  state : State
  contract_id : Option Nat
  closing_balances : ClosingBalances
deriving DecidableEq, Repr

/-- Modelled from the spec: update_closing_balances is called by
src/bin/customer/close.rs on the customer store but its implementation is not
in the tree. The spec says finalization records the final
(merchant_balance, customer_balance) atomically, and a unilateral close
records merchant_balance as paid out to the merchant; we set the merchant
balance, and the customer balance only when one is supplied. -/
def update_closing_balances (balances : ClosingBalances)
    (merchant_balance : Nat) (customer_balance : Option Nat) : ClosingBalances :=
  { merchant_balance := some merchant_balance
    customer_balance :=
      match customer_balance with
      | some cb => some cb
      | none => balances.customer_balance }

/-- The record serialized to the off-chain close file
(src/bin/customer/close.rs, struct Closing, lines 75 to 82). -/
structure Closing where
  channel_id : ChannelId
  customer_balance : Nat
  merchant_balance : Nat
  closing_signature : Sig
  revocation_lock : Nat
deriving DecidableEq, Repr

/-- Lower-case hexadecimal digit for a value below 16. -/
def hexDigit (n : Nat) : Char :=
  if n < 10 then Char.ofNat (48 + n) else Char.ofNat (87 + n)

/-- Hex encoding of one byte, two digits. -/
def hexByte (b : Nat) : String :=
  String.mk [hexDigit (b / 16 % 16), hexDigit (b % 16)]

/-- Hex encoding of a byte string (the hex::encode call of write_close_json). -/
def hexEncode (bs : List Nat) : String :=
  String.join (bs.map hexByte)

/-- Externally visible effects of the customer close flows: posting the
custClose or custClaim entrypoint, or writing the off-chain close file. -/
inductive Event where
  | custClose (contract_id : Nat) (close_message : ClosingMessage)
  | custClaim (contract_id : Nat)
  | closeJson (filename : String) (closing : Closing)
deriving DecidableEq, Repr

/-- Initiate channel closure on the current balances
(src/bin/customer/close.rs, unilateral_close, lines 91 to 142). Returns the
updated channel record, the effects performed (custClose call or close-file
write), and the result. Steps, as in the source: run get_close_message
(setting the state to PendingClose); return early if the close message has a
zero customer balance; on chain, look up the contract id (error if absent)
and post custClose; off chain, write the Closing record to
hex(channel_id).close.json; finally record the merchant balance as paid out
via finalize_customer_close, which calls update_closing_balances with no
customer balance. -/
def unilateral_close (off_chain : Bool) (rng : Nat) (channel : ChannelDetails) :
    ChannelDetails × List Event × Except CloseError Unit :=
  match get_close_message rng channel.state with
  | .error e => (channel, [], .error e)
  | .ok (state, close_message) =>
    let channel := { channel with state := state }
    if close_message.customer_balance = 0 then
      (channel, [], .ok ())
    else if !off_chain then
      match channel.contract_id with
      | none => (channel, [], .error .NoContractDetails)
      | some contract_id =>
        let balances :=
          update_closing_balances channel.closing_balances
            close_message.merchant_balance none
        ({ channel with closing_balances := balances },
          [.custClose contract_id close_message], .ok ())
    else
      let closing : Closing :=
        { merchant_balance := close_message.merchant_balance
          customer_balance := close_message.customer_balance
          closing_signature := close_message.closing_signature
          revocation_lock := close_message.revocation_lock
          channel_id := close_message.channel_id }
      let balances :=
        update_closing_balances channel.closing_balances
          close_message.merchant_balance none
      ({ channel with closing_balances := balances },
        [.closeJson (hexEncode close_message.channel_id.bytes ++ ".close.json") closing],
        .ok ())

/-- Claim the final channel balance via custClaim (src/bin/customer/close.rs,
claim_funds, lines 173 to 224). On a PendingClose state: move the state to
PendingCustomerClaim, look up the contract id (error if missing), post
custClaim, and finalize via finalize_customer_claim (state to Closed, both
final balances recorded). The final balances are returned by the on-chain
custClaim call, so they enter the model as a parameter. On a Dispute state do
nothing; on any other state fail with an unexpected-state error. -/
def claim_funds (final_merchant_balance final_customer_balance : Nat)
    (channel : ChannelDetails) : ChannelDetails × List Event × Except CloseError Unit :=
  match channel.state with
  | .PendingClose close_message =>
    let channel := { channel with state := .PendingCustomerClaim close_message }
    match channel.contract_id with
    | none => (channel, [], .error .NoContractDetails)
    | some contract_id =>
      let balances :=
        update_closing_balances channel.closing_balances
          final_merchant_balance (some final_customer_balance)
      ({ channel with state := .Closed close_message, closing_balances := balances },
        [.custClaim contract_id], .ok ())
  | .Dispute _ => (channel, [], .ok ())
  | other => (channel, [], .error (.UnexpectedState .PendingClose other.state_name))

/-- Record a dispute (src/bin/customer/close.rs, process_dispute, lines 231
to 251): move the state from PendingClose to Dispute through the store; on any
other state the store transaction fails with an unexpected-state error. -/
def process_dispute (channel : ChannelDetails) :
    ChannelDetails × List Event × Except CloseError Unit :=
  match channel.state with
  | .PendingClose close_message =>
    ({ channel with state := .Dispute close_message }, [], .ok ())
  | other => (channel, [], .error (.UnexpectedState .PendingClose other.state_name))

/-- One iteration of the customer polling loop for a single channel
(src/bin/customer/run.rs, Run::run, lines 90 to 144). A channel without a
stored contract id is skipped. The three reaction guards are evaluated, as in
the source, against the channel record fetched at the start of the tick; the
guard of the Expiry branch at lines 98 and 99 tests that the local state IS
PendingClose (there is no negation, unlike the CustomerClose branch at line
119). Errors of the individual reactions are printed and swallowed by the
loop. The final balances delivered by a custClaim call are a parameter. -/
def orchestratorStep (off_chain : Bool) (rng : Nat)
    (final_merchant_balance final_customer_balance : Nat)
    (contract_state : ContractState) (channel : ChannelDetails) :
    ChannelDetails × List Event :=
  match channel.contract_id with
  | none => (channel, [])
  | some _ =>
    let fetched := channel
    let (channel, events₁) :=
      if contract_state.status = .Expiry &&
          fetched.state.state_name = .PendingClose then
        let (channel, events, _result) := unilateral_close off_chain rng channel
        (channel, events)
      else (channel, [])
    let (channel, events₂) :=
      if contract_state.status = .CustomerClose &&
          contract_state.timeout_expired = some true &&
          !(fetched.state.state_name = .PendingCustomerClaim) then
        let (channel, events, _result) :=
          claim_funds final_merchant_balance final_customer_balance channel
        (channel, events)
      else (channel, [])
    let (channel, events₃) :=
      if contract_state.status = .Closed &&
          fetched.state.state_name = .PendingClose &&
          fetched.closing_balances.merchant_balance.isSome then
        let (channel, events, _result) := process_dispute channel
        (channel, events)
      else (channel, [])
    (channel, events₁ ++ events₂ ++ events₃)

/-- Run a closure against the persisted state of one channel
(src/database/customer.rs, with_channel_state_erased, lines 199 to 233, as
exposed by QueryCustomerExt::with_channel_state, lines 239 to 251). The row is
none when fetching the state fails because the label has no row, in which case
the transaction returns a database error and nothing is written. Otherwise the
transaction reads the nullable state column, applies the closure to it in
place, unconditionally writes the state the closure left behind, commits, and
returns the closure output. -/
def with_channel_state (T : Type) (with_state : Option State → Option State × T)
    (row : Option (Option State)) : Option (Option State) × Option T :=
  match row with
  | none => (none, none)
  | some state =>
    let (state, output) := with_state state
    (some state, some output)

/-- Errors surfaced by the customer pay flows (protocol pay::Error and the
local error enums of src/bin/customer/pay.rs). StartFailed stands for the
error context added at line 198 when Ready.start fails. -/
inductive PayError where
  | UnexpectedState (expected actual : StateName)
  | StartFailed
  | InvalidClosingSignature
  | InvalidPayToken
deriving DecidableEq, Repr

/-- StartMessage: the nonce and pay proof produced by Ready.start. -/
structure StartMessage where
  nonce : Nat
  pay_proof : Nat
deriving DecidableEq, Repr

/-- LockMessage: the revelation produced by Started.lock. -/
structure LockMessage where
  revocation_lock : Nat
  revocation_secret : Nat
  revocation_lock_blinding_factor : Nat
deriving DecidableEq, Repr

/-- Getter State::ready used by take_state: the Ready payload, or the state
itself when it is a different variant. -/
def State.ready : State → Except State ZkReady
  | .Ready r => .ok r
  | other => .error other

/-- Getter State::started. -/
def State.started : State → Except State ZkStarted
  | .Started s => .ok s
  | other => .error other

/-- Getter State::locked. -/
def State.locked : State → Except State ZkLocked
  | .Locked l => .ok l
  | other => .error other

/-- Match one variant of the state, taking it out of the mutable slot
(src/bin/customer/pay.rs, take_state, lines 308 to 331). An empty slot
reports an unexpected Closed state. When the getter rejects the state, the
state is put back in the slot and an unexpected-state error is returned; when
the getter succeeds, the slot is left empty and the payload returned. -/
def take_state (A : Type) (expected : StateName) (getter : State → Except State A)
    (state : Option State) : Option State × Except PayError A :=
  match state with
  | none => (none, .error (.UnexpectedState expected .Closed))
  | some open_state =>
    match getter open_state with
    | .ok a => (none, .ok a)
    | .error other_state =>
      (some other_state, .error (.UnexpectedState expected other_state.state_name))

/-- The closure start_payment passes to with_channel_state
(src/bin/customer/pay.rs, start_payment, lines 183 to 211): take the Ready
state out of the slot, then attempt Ready.start. The outcome of that external
cryptographic call enters the model as the start_result parameter: some
(started, message) on success, none on failure. On success the slot is set to
Started; on failure the error is propagated with the slot still empty. -/
def start_payment_closure (start_result : Option (ZkStarted × StartMessage))
    (state : Option State) : Option State × Except PayError StartMessage :=
  match take_state ZkReady .Ready State.ready state with
  | (state, .error e) => (state, .error e)
  | (state, .ok _ready) =>
    match start_result with
    | none => (state, .error .StartFailed)
    | some (started, start_message) => (some (.Started started), .ok start_message)

/-- The closure lock_payment passes to with_channel_state
(src/bin/customer/pay.rs, lock_payment, lines 213 to 246): take the Started
state out of the slot, then attempt Started.lock. The outcome of the external
cryptographic call is the lock_result parameter: some (locked, message) on
success, none on failure. On failure the Started state that lock handed back
is restored to the slot and Ok none is returned; on success the slot is set
to Locked and the lock message returned. -/
def lock_payment_closure (lock_result : Option (ZkLocked × LockMessage))
    (state : Option State) : Option State × Except PayError (Option LockMessage) :=
  match take_state ZkStarted .Started State.started state with
  | (state, .error e) => (state, .error e)
  | (_, .ok started) =>
    match lock_result with
    | none => (some (.Started started), .ok none)
    | some (locked, lock_message) => (some (.Locked locked), .ok (some lock_message))

/-- The customer reaction to the lock_payment outcome inside zkabacus_pay
(src/bin/customer/pay.rs, lines 148 to 169): a lock failure (Ok none from the
closure) makes the customer abort the session with InvalidClosingSignature;
a success proceeds with the lock message; errors pass through. -/
def lock_payment_step (lock_result : Option (ZkLocked × LockMessage))
    (state : Option State) : Option State × Except PayError LockMessage :=
  match lock_payment_closure lock_result state with
  | (state, .ok (some lock_message)) => (state, .ok lock_message)
  | (state, .ok none) => (state, .error .InvalidClosingSignature)
  | (state, .error e) => (state, .error e)

/-- Atomically insert a nonce (src/database/merchant.rs, insert_nonce, lines
41 to 50): INSERT with ON CONFLICT DO NOTHING, reporting whether a row was
added. The nonce table is modelled as the list of stored nonces. -/
def insert_nonce (nonce : Nat) (nonces : List Nat) : Bool × List Nat :=
  if nonce ∈ nonces then (false, nonces) else (true, nonces ++ [nonce])

/-- Results of a sequence of insert_nonce calls against one store, threading
the nonce table through: the pairs (nonce, returned flag) in call order. -/
def nonce_trace (calls : List Nat) (nonces : List Nat) : List (Nat × Bool) :=
  match calls with
  | [] => []
  | call :: rest =>
    let (fresh, nonces) := insert_nonce call nonces
    (call, fresh) :: nonce_trace rest nonces

/-- A row of the merchant revocation table: a lock and an optional secret. -/
structure RevPair where
  lock : Nat
  secret : Option Nat
deriving DecidableEq, Repr

/-- Insert a revocation lock and optional secret, returning all revocations
for that lock that existed prior (src/database/merchant.rs,
insert_revocation, lines 52 to 84): within one transaction, SELECT the rows
with the given lock, then INSERT the new row unconditionally and commit. The
table is modelled as the list of rows in insertion order; the result is the
prior rows for the lock together with the extended table. -/
def insert_revocation (lock : Nat) (secret : Option Nat) (table : List RevPair) :
    List RevPair × List RevPair :=
  (table.filter (fun pair => pair.lock = lock), table ++ [⟨lock, secret⟩])

/-- Outcome of the external check of a Pointcheval-Sanders signature
(zkabacus_crypto Verification). -/
inductive Verification where
  | Verified
  | Failed
deriving DecidableEq, Repr

/-- Modelled from the spec: the merchant per-channel status enumeration
(protocol ChannelStatus), referenced by src/bin/merchant/close.rs but not
defined in the tree. The spec names Active, PendingClose and Closed for the
mutual close flow. -/
inductive ChannelStatus where
  | Active
  | PendingClose
  | Closed
deriving DecidableEq, Repr

/-- Status of a channel id in the merchant channel status table. -/
def lookup_status (channel_id : ChannelId) :
    List (ChannelId × ChannelStatus) → Option ChannelStatus
  | [] => none
  | (cid, status) :: rest =>
    if cid = channel_id then some status else lookup_status channel_id rest

/-- Modelled from the spec: compare_and_swap_channel_status(channel_id,
expected, desired), called by src/bin/merchant/close.rs but not defined in
the tree. The spec says the status moves via compare and swap, is never
blindly overwritten, and a swap against a channel not in the expected status
fails cleanly. The status table maps channel ids to statuses; the swap
succeeds exactly when the channel currently has the expected status. -/
def compare_and_swap_channel_status (channel_id : ChannelId)
    (expected desired : ChannelStatus)
    (statuses : List (ChannelId × ChannelStatus)) :
    List (ChannelId × ChannelStatus) × Bool :=
  if lookup_status channel_id statuses = some expected then
    (statuses.map (fun entry =>
      if entry.1 = channel_id then (entry.1, desired) else entry), true)
  else
    (statuses, false)

/-- Errors of the merchant mutual close handler (protocol close::Error plus
the clean failure of the final compare and swap). -/
inductive MerchantCloseError where
  | KnownRevocationLock
  | InvalidCloseStateSignature
  | UnexpectedChannelStatus
deriving DecidableEq, Repr

/-- The merchant zkAbacus mutual close step (src/bin/merchant/close.rs,
zkabacus_close, lines 83 to 124). The outcome of
merchant_config.check_close_signature on the received pair is the external
verification parameter. On Verified, insert the revocation lock with no
secret; proceed exactly when no prior rows for that lock existed, otherwise
abort with KnownRevocationLock. On Failed, abort with
InvalidCloseStateSignature without touching the revocation table. Returns the
revocation table after the call and the protocol outcome. -/
def merchant_zkabacus_close (verification : Verification) (close_state : CloseState)
    (table : List RevPair) : List RevPair × Except MerchantCloseError CloseState :=
  match verification with
  | .Verified =>
    let (prior, table) := insert_revocation close_state.revocation_lock none table
    if prior.isEmpty then (table, .ok close_state)
    else (table, .error .KnownRevocationLock)
  | .Failed => (table, .error .InvalidCloseStateSignature)

/-- The merchant mutual close session handler (src/bin/merchant/close.rs,
Close::run, lines 20 to 57): run zkabacus_close, and on success move the
stored channel status from Active to PendingClose by compare and swap,
failing cleanly when the channel is not Active. Returns the revocation table,
the status table and the outcome. -/
def merchant_close_run (verification : Verification) (close_state : CloseState)
    (table : List RevPair) (statuses : List (ChannelId × ChannelStatus)) :
    List RevPair × List (ChannelId × ChannelStatus) × Except MerchantCloseError Unit :=
  match merchant_zkabacus_close verification close_state table with
  | (table, .error e) => (table, statuses, .error e)
  | (table, .ok close_state) =>
    let (statuses, swapped) :=
      compare_and_swap_channel_status close_state.channel_id
        .Active .PendingClose statuses
    (table, statuses, if swapped then .ok () else .error .UnexpectedChannelStatus)

/-! Concrete sample data used to evaluate the definitions at specific
inputs in the theorems below. -/

/-- A sample channel id. -/
def cid₀ : ChannelId := ⟨[17, 34]⟩

/-- A sample close state with zero customer balance. -/
def closeState₀ : CloseState := ⟨cid₀, 0, 3, 9⟩

/-- A sample closing message with zero customer balance. -/
def cm₀ : ClosingMessage := ⟨closeState₀, .mk 5⟩

/-- A sample close state with nonzero customer balance. -/
def closeState₁ : CloseState := ⟨cid₀, 5, 3, 9⟩

/-- A sample closing message with nonzero customer balance. -/
def cm₁ : ClosingMessage := ⟨closeState₁, .mk 5⟩

/-- A sample Ready state payload. -/
def ready₁ : ZkReady := ⟨cid₀, 5, 3, 9, .mk 5⟩

/-- A sample Started state payload. -/
def started₁ : ZkStarted := ⟨cid₀, 5, 3, 9, .mk 5⟩

/-! Theorems -/

/-- C1: the claim says the polling loop runs unilateral close on an Expiry
contract exactly when the local state is NOT PendingClose. The code does the
opposite: the guard at src/bin/customer/run.rs lines 98 and 99 tests that the
state IS PendingClose, with no negation, contradicting both the comment above
it (the channel has not reacted to the expiry) and the negated guard of the
parallel CustomerClose branch. Evaluating the loop body: a Ready channel with
an Expiry contract is left untouched and posts nothing, while a PendingClose
channel runs unilateral close and posts custClose. -/
theorem C1_expiry_guard_inverted :
    orchestratorStep false 0 0 0 ⟨.Expiry, none⟩ ⟨.Ready ready₁, some 7, ⟨none, none⟩⟩
      = (⟨.Ready ready₁, some 7, ⟨none, none⟩⟩, [])
    ∧ (orchestratorStep false 0 0 0 ⟨.Expiry, none⟩
        ⟨.PendingClose cm₁, some 7, ⟨none, none⟩⟩).2
      = [.custClose 7 cm₁] := by
  decide

/-- C5: the claim says repeated runs of the close-orchestrator action in the
same on-chain state never post the same on-chain operation twice. Because the
Expiry guard of the loop keeps firing on a PendingClose channel (the inverted
guard of src/bin/customer/run.rs lines 98 and 99), a channel that stays
PendingClose while the contract reports Expiry posts custClose again on the
second run: both applications emit the custClose event, even though the local
state is unchanged after the first. -/
theorem C5_custclose_double_posted :
    (orchestratorStep false 0 0 0 ⟨.Expiry, none⟩
        ⟨.PendingClose cm₁, some 7, ⟨none, none⟩⟩).2 = [.custClose 7 cm₁]
    ∧ (orchestratorStep false 0 0 0 ⟨.Expiry, none⟩
        (orchestratorStep false 0 0 0 ⟨.Expiry, none⟩
          ⟨.PendingClose cm₁, some 7, ⟨none, none⟩⟩).1).2 = [.custClose 7 cm₁]
    ∧ (orchestratorStep false 0 0 0 ⟨.Expiry, none⟩
        (orchestratorStep false 0 0 0 ⟨.Expiry, none⟩
          ⟨.PendingClose cm₁, some 7, ⟨none, none⟩⟩).1).1
      = (orchestratorStep false 0 0 0 ⟨.Expiry, none⟩
          ⟨.PendingClose cm₁, some 7, ⟨none, none⟩⟩).1 := by
  decide

/-- C2 counterexample: the claim says get_close_message fails with
UncloseableState exactly when the current state is Dispute or Closed, but the
catch-all arm of the match in src/bin/customer/close.rs (line 523) also
rejects the PendingCustomerClaim state, which is neither Dispute nor
Closed. -/
theorem C2_pending_customer_claim_rejected :
    get_close_message 0 (.PendingCustomerClaim cm₁)
      = .error (.UncloseableState .PendingCustomerClaim)
    ∧ (State.PendingCustomerClaim cm₁).state_name ≠ .Dispute
    ∧ (State.PendingCustomerClaim cm₁).state_name ≠ .Closed := by
  decide

/-- C2 (amended): get_close_message returns a ClosingMessage and sets the new
state to PendingClose(close_message) whenever the current state is one of
Inactive, Originated, CustomerFunded, MerchantFunded, Ready, Started, Locked
or PendingClose, and fails with UncloseableState naming the current state
exactly when the current state is PendingCustomerClaim, Dispute or Closed. -/
theorem C2_get_close_message_cases (rng : Nat) (st : State) :
    match get_close_message rng st with
    | .ok (st', cm) => st' = State.PendingClose cm ∧
        st.state_name ∈ [StateName.Inactive, .Originated, .CustomerFunded,
          .MerchantFunded, .Ready, .Started, .Locked, .PendingClose]
    | .error e => e = .UncloseableState st.state_name ∧
        st.state_name ∈ [StateName.PendingCustomerClaim, .Dispute, .Closed] := by
  cases st <;> simp [get_close_message, State.state_name]

/-- C3 counterexample: the claim says a step-3 failure (Ready.start) restores
the persisted state to Ready and never leaves it empty. In
src/bin/customer/pay.rs, start_payment takes the Ready state out of the slot
(take_state, line 193) and, when Ready.start fails (line 197), propagates the
error without restoring anything, so the transaction commits an empty state
slot: at a Ready channel with a failing start, the resulting slot is empty
and differs from the original Ready state. -/
theorem C3_start_failure_clears_state :
    start_payment_closure none (some (.Ready ready₁)) = (none, .error .StartFailed)
    ∧ (none : Option State) ≠ some (.Ready ready₁) := by
  decide

/-- C3 (amended): when step 5 fails locally (Started.lock rejects the
closing signature), the persisted state is restored to the previous Started
state and the customer surfaces InvalidClosingSignature; when step 3 fails
locally (Ready.start), the error is surfaced but the persisted state is left
empty rather than restored to Ready. -/
theorem C3_local_step_failures (ready : ZkReady) (started : ZkStarted) :
    lock_payment_step none (some (.Started started))
      = (some (.Started started), .error .InvalidClosingSignature)
    ∧ start_payment_closure none (some (.Ready ready)) = (none, .error .StartFailed) := by
  exact ⟨rfl, rfl⟩

/-- C4 counterexample: the claim says that whenever the closure fails, the
with_channel_state transaction aborts and the persisted state is unchanged.
The implementation (src/database/customer.rs, lines 199 to 233) writes back
whatever the closure left in the state slot and commits unconditionally:
a closure that empties the slot and returns an error still changes the
persisted state from Ready to empty. -/
theorem C4_failing_closure_commits :
    with_channel_state (Except PayError Unit) (fun _ => (none, .error .StartFailed))
      (some (some (.Ready ready₁)))
      = (some none, some (.error .StartFailed))
    ∧ some (none : Option State) ≠ some (some (State.Ready ready₁)) := by
  exact ⟨rfl, by decide⟩

/-- C4 (amended): with_channel_state runs a transaction that reads the
current state, applies the closure to it in place, unconditionally writes the
state the closure left behind, commits, and returns the closure output (a
missing row yields a database error and writes nothing); the persisted state
is unchanged after a failing closure only when the closure itself leaves the
state it read, there is no abort on failure. -/
theorem C4_with_channel_state_commits (T : Type)
    (f : Option State → Option State × T) (st : Option State) :
    with_channel_state T f (some st) = (some (f st).1, some (f st).2)
    ∧ with_channel_state T f none = (none, none)
    ∧ ((f st).1 = st → (with_channel_state T f (some st)).1 = some st) := by
  refine ⟨rfl, rfl, fun h => ?_⟩
  simp [with_channel_state, h]

/-- C4 witness: the unchanged-state conclusion applied to a closure that
returns the state it read. -/
theorem C4_with_channel_state_commits_witness :
    (with_channel_state (Except PayError Unit) (fun s => (s, .ok ()))
      (some (some (.Ready ready₁)))).1 = some (some (.Ready ready₁)) :=
  (C4_with_channel_state_commits (Except PayError Unit)
    (fun s => (s, .ok ())) (some (.Ready ready₁))).2.2 rfl

/-- C6 counterexample: the claim says that after get_close_message succeeds,
unilateral close posts custClose (or writes the close file) and then records
the merchant balance. The early return at src/bin/customer/close.rs lines 103
to 106 skips both whenever the close message carries a zero customer balance:
on such a channel, get_close_message succeeds, yet unilateral_close performs
no effect and leaves the closing balances unrecorded. -/
theorem C6_zero_balance_skips_close :
    get_close_message 0 (.PendingClose cm₀) = .ok (.PendingClose cm₀, cm₀)
    ∧ unilateral_close false 0 ⟨.PendingClose cm₀, some 7, ⟨none, none⟩⟩
      = (⟨.PendingClose cm₀, some 7, ⟨none, none⟩⟩, [], .ok ())
    ∧ cm₀.customer_balance = 0 := by
  decide

/-- C6 (amended): for every channel on which unilateral close is initiated,
if get_close_message succeeds with a close message whose customer balance is
nonzero and the store holds a contract id, then the customer posts custClose
with that contract id and close message (or, off chain, writes the Closing
record with fields channel_id, customer_balance, merchant_balance,
closing_signature, revocation_lock to the file hex(channel_id).close.json)
and records the merchant balance of the close message as paid out in the
store; when the customer balance is zero, unilateral close stops after the
state transition and neither posts nor records anything. -/
theorem C6_unilateral_close_effects (off_chain : Bool) (rng cid : Nat)
    (channel : ChannelDetails) (state : State) (cm : ClosingMessage)
    (h₁ : get_close_message rng channel.state = .ok (state, cm))
    (h₂ : cm.customer_balance ≠ 0)
    (h₃ : channel.contract_id = some cid) :
    unilateral_close off_chain rng channel =
      ({ channel with
          state := state
          closing_balances :=
            update_closing_balances channel.closing_balances cm.merchant_balance none },
        [if off_chain then
            Event.closeJson (hexEncode cm.channel_id.bytes ++ ".close.json")
              ⟨cm.channel_id, cm.customer_balance, cm.merchant_balance,
                cm.closing_signature, cm.revocation_lock⟩
          else Event.custClose cid cm],
        .ok ()) := by
  unfold unilateral_close
  rw [h₁]
  cases off_chain with
  | false => simp [h₂, h₃]
  | true => simp [h₂]

/-- C6 witness: the effects of an on-chain unilateral close run at a concrete
Ready channel with nonzero customer balance and a stored contract id. -/
theorem C6_unilateral_close_effects_witness :
    unilateral_close false 0 ⟨.Ready ready₁, some 7, ⟨none, none⟩⟩
      = (⟨.PendingClose (ready₁.close 0), some 7, ⟨some 3, none⟩⟩,
        [.custClose 7 (ready₁.close 0)], .ok ()) :=
  C6_unilateral_close_effects false 0 7 ⟨.Ready ready₁, some 7, ⟨none, none⟩⟩
    (.PendingClose (ready₁.close 0)) (ready₁.close 0) rfl (by decide) rfl

/-- C7: the claim says the channel id computed during Establish depends on
both parties Tezos addresses. The code (src/bin/customer/establish.rs, lines
115 to 121) passes empty byte strings in both address positions of
ChannelId::new, with TODO comments marking the omission, so the computed id
is the same for all addresses and equals ChannelId::new applied to empty
addresses. -/
theorem C7_channel_id_ignores_addresses (mr cr pk : Nat) (ma ca ma₂ ca₂ : List Nat) :
    establish_channel_id mr cr pk ma ca = establish_channel_id mr cr pk ma₂ ca₂
    ∧ establish_channel_id mr cr pk ma ca = ChannelId.new mr cr pk [] [] := by
  exact ⟨rfl, rfl⟩

/-- Counting helper for insert_nonce call sequences: starting from any nonce
table, a given nonce is reported fresh exactly once over a call sequence if it
is not already stored and occurs in the sequence, and never otherwise. -/
theorem nonce_trace_count (calls : List Nat) (s : List Nat) (n : Nat) :
    (nonce_trace calls s).countP (fun r => r.1 == n && r.2)
      = if n ∈ s then 0 else if n ∈ calls then 1 else 0 := by
  induction calls generalizing s with
  | nil => simp [nonce_trace]
  | cons c rest ih =>
    by_cases hcs : c ∈ s
    · have h1 : nonce_trace (c :: rest) s = (c, false) :: nonce_trace rest s := by
        simp [nonce_trace, insert_nonce, hcs]
      rw [h1, List.countP_cons, ih]
      by_cases hns : n ∈ s
      · simp [hns]
      · have hnc : ¬(n = c) := fun h => hns (h ▸ hcs)
        have hnc₂ : ¬(c = n) := fun h => hnc h.symm
        simp [hns, hnc, hnc₂, List.mem_cons]
    · have h1 : nonce_trace (c :: rest) s = (c, true) :: nonce_trace rest (s ++ [c]) := by
        simp [nonce_trace, insert_nonce, hcs]
      rw [h1, List.countP_cons, ih]
      by_cases hnc : n = c
      · subst hnc
        simp [hcs, List.mem_append]
      · have hnc₂ : ¬(c = n) := fun h => hnc h.symm
        by_cases hns : n ∈ s
        · simp [hns, List.mem_append, hnc, hnc₂]
        · simp [hns, List.mem_append, hnc, hnc₂, List.mem_cons]

/-- C8: insert_nonce returns false and leaves the nonce table unchanged on a
stored nonce, returns true and stores the nonce on a fresh one; consequently,
over any sequence of insert_nonce calls against a store that starts empty,
each nonce value is reported fresh (true) on exactly one call, namely its
first insertion, and on no call when it never occurs. -/
theorem C8_insert_nonce_unique :
    (∀ nonces n, n ∈ nonces → insert_nonce n nonces = (false, nonces))
    ∧ (∀ nonces n, n ∉ nonces →
        (insert_nonce n nonces).1 = true ∧ n ∈ (insert_nonce n nonces).2)
    ∧ (∀ calls n, (nonce_trace calls []).countP (fun r => r.1 == n && r.2)
        = if n ∈ calls then 1 else 0) := by
  refine ⟨fun nonces n h => by simp [insert_nonce, h],
    fun nonces n h => by simp [insert_nonce, h],
    fun calls n => ?_⟩
  have h := nonce_trace_count calls [] n
  simpa using h

/-- C8 witness: a duplicate insertion returns false and leaves the table
unchanged, and a fresh insertion returns true. -/
theorem C8_insert_nonce_unique_witness :
    insert_nonce 2 [2] = (false, [2]) ∧ (insert_nonce 3 [2]).1 = true :=
  ⟨C8_insert_nonce_unique.1 [2] 2 (by decide),
    (C8_insert_nonce_unique.2.1 [2] 3 (by decide)).1⟩

/-- Lookup after the compare-and-swap update map: when a channel id is
present in the status table, rewriting its entries to the desired status
makes lookup return that status. -/
theorem lookup_map_swap (cid : ChannelId) (desired : ChannelStatus)
    (statuses : List (ChannelId × ChannelStatus))
    (h : (lookup_status cid statuses).isSome) :
    lookup_status cid (statuses.map (fun entry =>
      if entry.1 = cid then (entry.1, desired) else entry))
      = some desired := by
  induction statuses with
  | nil => simp [lookup_status] at h
  | cons e rest ih =>
    obtain ⟨a, b⟩ := e
    simp only [List.map_cons]
    by_cases he : a = cid
    · subst he
      rw [show (if (a, b).1 = a then ((a, b).1, desired) else (a, b)) = (a, desired)
        from if_pos rfl]
      simp [lookup_status]
    · rw [show (if (a, b).1 = cid then ((a, b).1, desired) else (a, b)) = (a, b)
        from if_neg he]
      simp only [lookup_status, if_neg he] at h ⊢
      exact ih h

/-- C9: in the merchant mutual close handler, the session aborts with
InvalidCloseStateSignature exactly when the signature verification fails (and
then neither store table is touched); it aborts with KnownRevocationLock
exactly when verification succeeds but prior revocation rows for the received
lock existed; it succeeds exactly when verification succeeds, the lock is
fresh, and the stored channel status is Active, in which case the status is
moved Active to PendingClose by compare and swap; whenever the run does not
succeed, the status table is unchanged, so a non-Active status is never
overwritten. -/
theorem C9_merchant_close (v : Verification) (cs : CloseState)
    (table : List RevPair) (statuses : List (ChannelId × ChannelStatus)) :
    ((merchant_close_run v cs table statuses).2.2 = .error .InvalidCloseStateSignature
      ↔ v = .Failed)
    ∧ (v = .Failed → (merchant_close_run v cs table statuses).1 = table
        ∧ (merchant_close_run v cs table statuses).2.1 = statuses)
    ∧ ((merchant_close_run v cs table statuses).2.2 = .error .KnownRevocationLock
      ↔ v = .Verified ∧ table.filter (fun p => p.lock = cs.revocation_lock) ≠ [])
    ∧ ((merchant_close_run v cs table statuses).2.2 = .ok ()
      ↔ v = .Verified ∧ table.filter (fun p => p.lock = cs.revocation_lock) = []
          ∧ lookup_status cs.channel_id statuses = some ChannelStatus.Active)
    ∧ ((merchant_close_run v cs table statuses).2.2 = .ok () →
        lookup_status cs.channel_id (merchant_close_run v cs table statuses).2.1
          = some ChannelStatus.PendingClose)
    ∧ ((merchant_close_run v cs table statuses).2.2 ≠ .ok () →
        (merchant_close_run v cs table statuses).2.1 = statuses) := by
  cases v with
  | Failed =>
    simp [merchant_close_run, merchant_zkabacus_close]
  | Verified =>
    by_cases hp : table.filter (fun p => p.lock = cs.revocation_lock) = []
    · by_cases hl : lookup_status cs.channel_id statuses = some ChannelStatus.Active
      · have hsome : (lookup_status cs.channel_id statuses).isSome := by rw [hl]; rfl
        simp [merchant_close_run, merchant_zkabacus_close, insert_revocation,
          compare_and_swap_channel_status, hp, hl,
          lookup_map_swap cs.channel_id ChannelStatus.PendingClose statuses hsome]
      · simp [merchant_close_run, merchant_zkabacus_close, insert_revocation,
          compare_and_swap_channel_status, hp, hl]
    · simp [merchant_close_run, merchant_zkabacus_close, insert_revocation, hp]

/-- C9 witness: a verified mutual close on a fresh lock against an Active
channel succeeds and moves the stored status to PendingClose. -/
theorem C9_merchant_close_witness :
    (merchant_close_run .Verified closeState₁ [] [(cid₀, .Active)]).2.2 = .ok ()
    ∧ lookup_status cid₀ (merchant_close_run .Verified closeState₁ [] [(cid₀, .Active)]).2.1
      = some ChannelStatus.PendingClose := by
  have h := C9_merchant_close .Verified closeState₁ [] [(cid₀, .Active)]
  refine ⟨h.2.2.2.1.mpr ⟨rfl, by decide, by decide⟩, ?_⟩
  exact h.2.2.2.2.1 (h.2.2.2.1.mpr ⟨rfl, by decide, by decide⟩)

/-- C10: insert_revocation always inserts the new (lock, secret) row, growing
the table by one even when rows for the lock already exist; the rows it
returns are exactly the rows for that same lock that existed before the
insert (rows for other locks are never returned); and on the merchant
KnownRevocationLock abort path the revocation table has nonetheless been
extended with the duplicate lock (with no secret) before the abort is
sent. -/
theorem C10_insert_revocation_semantics (lock : Nat) (secret : Option Nat)
    (table : List RevPair) (cs : CloseState) :
    (⟨lock, secret⟩ : RevPair) ∈ (insert_revocation lock secret table).2
    ∧ (insert_revocation lock secret table).2.length = table.length + 1
    ∧ (∀ p, p ∈ (insert_revocation lock secret table).1 → p.lock = lock ∧ p ∈ table)
    ∧ (∀ p, p ∈ table → p.lock = lock → p ∈ (insert_revocation lock secret table).1)
    ∧ (merchant_zkabacus_close .Verified cs table).1
      = table ++ [⟨cs.revocation_lock, none⟩] := by
  refine ⟨by simp [insert_revocation], by simp [insert_revocation],
    fun p hp => ?_, fun p hp hl => ?_, ?_⟩
  · simp only [insert_revocation, List.mem_filter, decide_eq_true_eq] at hp
    exact ⟨hp.2, hp.1⟩
  · simp only [insert_revocation, List.mem_filter, decide_eq_true_eq]
    exact ⟨hp, hl⟩
  · simp only [merchant_zkabacus_close, insert_revocation]
    split <;> rfl

/-- C10 witness: inserting a duplicate lock returns the existing row for that
lock, whose lock field matches. -/
theorem C10_insert_revocation_semantics_witness :
    ((⟨9, none⟩ : RevPair).lock = 9
      ∧ (⟨9, none⟩ : RevPair) ∈ (insert_revocation 9 (some 4) [⟨9, none⟩]).1) := by
  have h := C10_insert_revocation_semantics 9 (some 4) [⟨9, none⟩] closeState₁
  exact ⟨(h.2.2.1 ⟨9, none⟩ (by decide)).1, h.2.2.2.1 ⟨9, none⟩ (by decide) rfl⟩

end Zeekoe
